import Mathlib

/-!
# Verification of the auth-service token lifecycle and session-revocation subsystem

Shallow embedding of `services/auth-service` (files `config.py`, `security.py`,
`crud.py`, `dependencies.py`, `routers/auth.py`).  Time is modelled as seconds
since the epoch (`Nat`); `datetime.utcnow()` becomes an explicit `now : Nat`
argument.  The database session is modelled as an explicit record `DB` threaded
through each operation.  JWTs are modelled as structured values carrying their
claim payload, the signing key and the algorithm name; signature verification
becomes a comparison of the key and algorithm, which is faithful for the
HMAC scheme the code pins (`jwt.encode`/`jwt.decode` with a shared secret).
-/

namespace AuthService

/-- `config.py` `Settings`: the JWT-relevant configuration surface.
Defaults as in the source. -/
structure Settings where
  secret_key : String := "your-secret-key-change-in-production"
  algorithm : String := "HS256"
  access_token_expire_minutes : Nat := 30
  deriving Repr, DecidableEq

/-- The claim set of a JWT (`sub`, `username`, `jti`, `type`, `iat`, `exp`).
Fields that a hand-built token may omit are `Option`; `iat`/`exp` are epoch
seconds. -/
structure Payload where
  sub : Option String := none
  username : Option String := none
  jti : Option String := none
  type : Option String := none
  iat : Nat := 0
  exp : Nat := 0
  deriving Repr, DecidableEq

/-- A serialized signed token: payload plus the key and algorithm it was
signed with (`jwt.encode(to_encode, settings.secret_key, algorithm=...)`). -/
structure Jwt where
  payload : Payload
  key : String
  alg : String
  deriving Repr, DecidableEq

/-- `schemas.py` `TokenData`: what `verify_token` returns.  The source always
fills `user_id` (it raises before constructing `TokenData` when `sub` is
missing), so it is total here; `username` and `jti` stay optional. -/
structure TokenData where
  user_id : Int
  username : Option String := none
  jti : Option String := none
  deriving Repr, DecidableEq

/-- `fastapi.HTTPException` as surfaced to the caller: status code and detail. -/
structure HTTPError where
  status : Nat
  detail : String
  deriving Repr, DecidableEq

/-- `models.py` `User` row. -/
structure User where
  id : Int
  username : String
  email : Option String := none
  hashed_password : String
  is_active : Bool := true
  is_admin : Bool := false
  created_at : Nat := 0
  last_login : Option Nat := none
  deriving Repr, DecidableEq

/-- `models.py` `UserSession` row (the Session Ledger record). -/
structure UserSession where
  user_id : Int
  token_jti : String
  ip_address : Option String := none
  user_agent : Option String := none
  created_at : Nat := 0
  expires_at : Nat
  revoked_at : Option Nat := none
  is_active : Bool := true
  deriving Repr, DecidableEq

/-- `models.py` `AuditLog` row. -/
structure AuditLog where
  user_id : Option Int := none
  action : String
  resource : Option String := none
  result : String
  details : Option String := none
  ip_address : Option String := none
  user_agent : Option String := none
  created_at : Nat := 0
  deriving Repr, DecidableEq

/-- The database state threaded through the workflows. -/
structure DB where
  users : List User := []
  sessions : List UserSession := []
  audits : List AuditLog := []
  deriving Repr, DecidableEq

/-- Client context extracted by `dependencies.get_client_info`. -/
structure ClientInfo where
  ip_address : Option String := none
  user_agent : Option String := none
  deriving Repr, DecidableEq

/-! ## Token codec (`security.py`) -/

/-- Failure modes of `jose.jwt.decode`: any signature/structure problem or
expiry; both are subclasses of `JWTError` in the source and are not
distinguished by `verify_token`. -/
inductive JoseError where
  | invalid
  | expired
  deriving Repr, DecidableEq

/-- `jose.jwt.decode(token, key, algorithms=[alg])` with default options:
verifies the signature (key match), pins the algorithm, and checks `exp`
against the current time (leeway 0: valid iff `now ≤ exp`). -/
def jwtDecode (tok : Jwt) (key : String) (algs : List String) (now : Nat) :
    Except JoseError Payload :=
  if tok.key ≠ key ∨ tok.alg ∉ algs then .error .invalid
  else if tok.payload.exp < now then .error .expired
  else .ok tok.payload

/-- Value of one decimal digit character (codepoints 48–57). -/
def digitVal? (c : Char) : Option Nat :=
  let n := c.toNat
  if 48 ≤ n ∧ n ≤ 57 then some (n - 48) else none

/-- Accumulate a decimal numeral. -/
def natFromDigits? : List Char → Nat → Option Nat
  | [], acc => some acc
  | c :: cs, acc =>
    match digitVal? c with
    | none => none
    | some d => natFromDigits? cs (acc * 10 + d)

/-- Python `int(s)` on a string: an optional minus sign followed by decimal
digits; anything else raises `ValueError` (here `none`). -/
def parseIntStr (s : String) : Option Int :=
  match s.data with
  | [] => none
  | '-' :: cs =>
    if cs.isEmpty then none
    else (natFromDigits? cs 0).map (fun n => -(n : Int))
  | cs => (natFromDigits? cs 0).map (fun n => (n : Int))

/-- `uuid.uuid4()` modelled as an injective function of a per-process issuance
counter: each call consumes the counter and yields a fresh identifier.  Only
freshness (global uniqueness per issuance) matters to the code; the string
shape is irrelevant. -/
def uuid4 (n : Nat) : String :=
  String.mk (List.replicate (n + 1) 'u')

/-- Data dict passed by the orchestrator to the token factories
(`{"sub": str(user.id), "username": user.username}`). -/
structure TokenSeed where
  sub : String
  username : String
  deriving Repr, DecidableEq

/-- `security.create_access_token(data, expires_delta)`: claims are the seed
plus `exp`, `iat`, a fresh `jti` and `type="access"`; `expires_delta` is in
seconds here, defaulting to `access_token_expire_minutes` minutes.  Returns
the signed token and the advanced uuid counter. -/
def create_access_token (settings : Settings) (data : TokenSeed)
    (expires_delta : Option Nat) (now : Nat) (gen : Nat) : Jwt × Nat :=
  let expire := match expires_delta with
    | some d => now + d
    | none => now + 60 * settings.access_token_expire_minutes
  let payload : Payload :=
    { sub := some data.sub
      username := some data.username
      jti := some (uuid4 gen)
      type := some "access"
      iat := now
      exp := expire }
  ({ payload := payload, key := settings.secret_key, alg := settings.algorithm },
    gen + 1)

/-- `security.create_refresh_token(data)`: same claim shape with
`type="refresh"` and a hard-coded 7-day expiry (`timedelta(days=7)` =
604800 seconds in the source, not read from configuration). -/
def create_refresh_token (settings : Settings) (data : TokenSeed)
    (now : Nat) (gen : Nat) : Jwt × Nat :=
  let payload : Payload :=
    { sub := some data.sub
      username := some data.username
      jti := some (uuid4 gen)
      type := some "refresh"
      iat := now
      exp := now + 604800 }
  ({ payload := payload, key := settings.secret_key, alg := settings.algorithm },
    gen + 1)

/-- The uniform 401 raised by `security.verify_token` for every decode or
claim failure. -/
def credentialsException : HTTPError :=
  { status := 401, detail := "인증 정보를 확인할 수 없습니다" }

/-- `security.verify_token(token)`: decode with pinned algorithm; require the
`sub` claim and convert it with `int(...)`; return `TokenData` with whatever
`username`/`jti` the payload carries (missing claims become `None`).  The
`type` claim is not inspected. -/
def verify_token (settings : Settings) (now : Nat) (tok : Jwt) :
    Except HTTPError TokenData :=
  match jwtDecode tok settings.secret_key [settings.algorithm] now with
  | .error _ => .error credentialsException
  | .ok payload =>
    match payload.sub with
    | none => .error credentialsException
    | some s =>
      match parseIntStr s with
      | none => .error credentialsException
      | some uid =>
        .ok { user_id := uid, username := payload.username, jti := payload.jti }

/-- `security.get_token_expire_time()`: advertised token lifetime in seconds,
taken from configuration. -/
def get_token_expire_time (settings : Settings) : Nat :=
  60 * settings.access_token_expire_minutes

/-! ## CRUD layer (`crud.py`) -/

/-- `UserCRUD.get_user_by_id`: first row with the given id (exceptions are
swallowed into `None`). -/
def get_user_by_id (db : DB) (user_id : Int) : Option User :=
  db.users.find? (fun u => u.id == user_id)

/-- `UserCRUD.get_user_by_username_or_email`: first row whose username or
email equals the identifier (SQL `NULL = x` matches nothing, hence the
`some` comparison on email). -/
def get_user_by_username_or_email (db : DB) (identifier : String) : Option User :=
  db.users.find? (fun u => u.username == identifier || u.email == some identifier)

/-- `UserCRUD.update_last_login`: stamp `last_login = utcnow()` on the row;
failures are swallowed (no raise). -/
def update_last_login (db : DB) (user_id : Int) (now : Nat) : DB :=
  { db with
    users := db.users.map (fun u =>
      if u.id == user_id then { u with last_login := some now } else u) }

/-- `SessionCRUD.create_session`: insert a new active ledger record whose
expiry is `now` plus the configured access-token TTL.  The `token_jti`
column is `NOT NULL UNIQUE`, so inserting a `None` jti or a duplicate jti
raises (here `.error ()`), which the caller surfaces as a 500. -/
def create_session (settings : Settings) (db : DB) (user_id : Int)
    (token_jti : Option String) (client : ClientInfo) (now : Nat) :
    Except Unit (DB × UserSession) :=
  match token_jti with
  | none => .error ()
  | some jti =>
    if db.sessions.any (fun s => s.token_jti == jti) then .error ()
    else
      let record : UserSession :=
        { user_id := user_id
          token_jti := jti
          ip_address := client.ip_address
          user_agent := client.user_agent
          created_at := now
          expires_at := now + 60 * settings.access_token_expire_minutes
          revoked_at := none
          is_active := true }
      .ok ({ db with sessions := db.sessions ++ [record] }, record)

/-- `SessionCRUD.get_active_session`: first row with this jti that is marked
active and whose expiry is strictly in the future.  A pure query: the state
is not touched.  A `None` jti matches no row (SQL `NULL` comparison). -/
def get_active_session (db : DB) (now : Nat) (token_jti : Option String) :
    Option UserSession :=
  db.sessions.find? (fun s =>
    some s.token_jti == token_jti && s.is_active && decide (now < s.expires_at))

/-- The row update `revoke_session` applies to each row: matching rows get
`is_active=false, revoked_at=now`, others are untouched. -/
def revokeMark (now : Nat) (token_jti : Option String) (s : UserSession) :
    UserSession :=
  if some s.token_jti == token_jti then
    { s with is_active := false, revoked_at := some now }
  else s

/-- `SessionCRUD.revoke_session`: `UPDATE user_sessions SET is_active=false,
revoked_at=now WHERE token_jti = :jti`; returns whether the row count of the
update was positive.  The filter is on `token_jti` alone — it does not
require the row to still be active. -/
def revoke_session (db : DB) (now : Nat) (token_jti : Option String) :
    DB × Bool :=
  let matched := db.sessions.countP (fun s => some s.token_jti == token_jti)
  ({ db with sessions := db.sessions.map (revokeMark now token_jti) },
    decide (0 < matched))

/-- `AuditCRUD.create_audit_log`: append one audit row.  `auditOk` models
whether the underlying insert/commit succeeds; on failure the source rolls
its own insert back and RE-RAISES the exception to the caller. -/
def create_audit_log (db : DB) (auditOk : Bool) (user_id : Option Int)
    (action result : String) (resource details : Option String)
    (client : ClientInfo) (now : Nat) : Except Unit DB :=
  if auditOk then
    .ok { db with
          audits := db.audits ++
            [{ user_id := user_id
               action := action
               resource := resource
               result := result
               details := details
               ip_address := client.ip_address
               user_agent := client.user_agent
               created_at := now }] }
  else .error ()

/-! ## Dependencies (`dependencies.py`) -/

/-- `get_current_user_token`: require a bearer credential, then
`verify_token`. -/
def get_current_user_token (settings : Settings) (now : Nat)
    (credentials : Option Jwt) : Except HTTPError TokenData :=
  match credentials with
  | none => .error { status := 401, detail := "인증 토큰이 필요합니다" }
  | some cred => verify_token settings now cred

/-- `get_current_user`: token authenticity plus user existence and account
status.  Note: no session-ledger lookup happens here. -/
def get_current_user (settings : Settings) (db : DB) (now : Nat)
    (credentials : Option Jwt) : Except HTTPError User :=
  match get_current_user_token settings now credentials with
  | .error e => .error e
  | .ok token_data =>
    match get_user_by_id db token_data.user_id with
    | none => .error { status := 401, detail := "사용자를 찾을 수 없습니다" }
    | some user =>
      if user.is_active = false then
        .error { status := 401, detail := "비활성화된 계정입니다" }
      else .ok user

/-- `validate_session`: require a non-falsy `jti` claim (Python
`if not token_data.jti` treats both `None` and the empty string as falsy),
then require an active, unexpired ledger record for it. -/
def validate_session (settings : Settings) (db : DB) (now : Nat)
    (credentials : Option Jwt) : Except HTTPError UserSession :=
  match get_current_user_token settings now credentials with
  | .error e => .error e
  | .ok token_data =>
    match token_data.jti with
    | none => .error { status := 401, detail := "유효하지 않은 토큰입니다" }
    | some j =>
      if j = "" then .error { status := 401, detail := "유효하지 않은 토큰입니다" }
      else
        match get_active_session db now (some j) with
        | none =>
          .error { status := 401, detail := "세션이 만료되었거나 유효하지 않습니다" }
        | some s => .ok s

/-! ## Router (`routers/auth.py`) -/

/-- `schemas.py` `UserResponse`. -/
structure UserResponse where
  id : Int
  username : String
  email : Option String
  is_active : Bool
  is_admin : Bool
  created_at : Nat
  last_login : Option Nat
  deriving Repr, DecidableEq

/-- `UserResponse.from_orm`. -/
def UserResponse.from_orm (u : User) : UserResponse :=
  { id := u.id
    username := u.username
    email := u.email
    is_active := u.is_active
    is_admin := u.is_admin
    created_at := u.created_at
    last_login := u.last_login }

/-- `schemas.py` `LoginResponse`. -/
structure LoginResponse where
  access_token : Jwt
  refresh_token : Jwt
  token_type : String := "bearer"
  expires_in : Nat
  user : UserResponse
  deriving Repr, DecidableEq

/-- The generic 500 of the login endpoint's `except Exception` handler. -/
def loginError500 : HTTPError :=
  { status := 500, detail := "로그인 처리 중 오류가 발생했습니다" }

/-- The uniform bad-credentials 401 of the login endpoint. -/
def badCredentials401 : HTTPError :=
  { status := 401, detail := "사용자명 또는 비밀번호가 올바르지 않습니다" }

/-- `login` endpoint.  `verify_password` (passlib/bcrypt, an external
collaborator) is passed in as an oracle.  Exceptions raised by an audit
write propagate to the generic handler and become `loginError500`, with the
state already committed by earlier steps kept (each CRUD call commits
separately; `create_audit_log` rolls back only its own insert).  Note the
hard-coded `access_token_expires = timedelta(minutes=30)` in the source. -/
def login (settings : Settings) (verify_password : String → String → Bool)
    (db : DB) (gen now : Nat) (auditOk : Bool)
    (username password : String) (client : ClientInfo) :
    (DB × Nat) × Except HTTPError LoginResponse :=
  match get_user_by_username_or_email db username with
  | none =>
    match create_audit_log db auditOk none "login" "failure" none
        (some ("User not found: " ++ username)) client now with
    | .error _ => ((db, gen), .error loginError500)
    | .ok db1 => ((db1, gen), .error badCredentials401)
  | some user =>
    if user.is_active = false then
      match create_audit_log db auditOk (some user.id) "login" "failure" none
          (some "Account is inactive") client now with
      | .error _ => ((db, gen), .error loginError500)
      | .ok db1 =>
        ((db1, gen), .error { status := 401, detail := "비활성화된 계정입니다" })
    else if verify_password password user.hashed_password = false then
      match create_audit_log db auditOk (some user.id) "login" "failure" none
          (some "Invalid password") client now with
      | .error _ => ((db, gen), .error loginError500)
      | .ok db1 => ((db1, gen), .error badCredentials401)
    else
      let token_data : TokenSeed := { sub := toString user.id, username := user.username }
      let (access_token, gen1) :=
        create_access_token settings token_data (some (30 * 60)) now gen
      let (refresh_tok, gen2) := create_refresh_token settings token_data now gen1
      match verify_token settings now access_token with
      | .error e => ((db, gen2), .error e)
      | .ok token_payload =>
        match create_session settings db user.id token_payload.jti client now with
        | .error _ => ((db, gen2), .error loginError500)
        | .ok (db1, _) =>
          let db2 := update_last_login db1 user.id now
          match create_audit_log db2 auditOk (some user.id) "login" "success"
              none none client now with
          | .error _ => ((db2, gen2), .error loginError500)
          | .ok db3 =>
            ((db3, gen2),
              .ok { access_token := access_token
                    refresh_token := refresh_tok
                    token_type := "bearer"
                    expires_in := get_token_expire_time settings
                    user := UserResponse.from_orm user })

/-- `/auth/me`: the CurrentPrincipal convenience, `get_current_user` and
nothing more — in particular no session-ledger check. -/
def get_current_user_info (settings : Settings) (db : DB) (now : Nat)
    (credentials : Option Jwt) : Except HTTPError UserResponse :=
  match get_current_user settings db now credentials with
  | .error e => .error e
  | .ok current_user => .ok (UserResponse.from_orm current_user)

/-- Successful payload of the verify endpoint (`valid=True` plus the
identity fields). -/
structure VerifyOk where
  user_id : Int
  username : String
  is_admin : Bool
  deriving Repr, DecidableEq

/-- `/auth/verify`: token authenticity, then user existence/status, then
session liveness.  No audit write.  The token's `type` claim is never
inspected on this path. -/
def verify_token_endpoint (settings : Settings) (db : DB) (now : Nat)
    (credentials : Option Jwt) : Except HTTPError VerifyOk :=
  match credentials with
  | none => .error { status := 401, detail := "토큰이 필요합니다" }
  | some cred =>
    match verify_token settings now cred with
    | .error e => .error e
    | .ok token_data =>
      match get_user_by_id db token_data.user_id with
      | none => .error { status := 401, detail := "유효하지 않은 사용자입니다" }
      | some user =>
        if user.is_active = false then
          .error { status := 401, detail := "유효하지 않은 사용자입니다" }
        else
          match get_active_session db now token_data.jti with
          | none => .error { status := 401, detail := "세션이 만료되었습니다" }
          | some _ =>
            .ok { user_id := user.id
                  username := user.username
                  is_admin := user.is_admin }

/-- The logout endpoint's generic 500 (same detail string as its 400 in the
source). -/
def logoutError500 : HTTPError :=
  { status := 500, detail := "로그아웃 처리 중 오류가 발생했습니다" }

/-- `/auth/logout`: FastAPI resolves the dependencies `get_current_user`,
`get_current_user_token` and `validate_session` in order; then the body
revokes the session, writes the audit row (a raise there becomes the
generic 500) and answers, or answers 400 when revoke reports no row. -/
def logout (settings : Settings) (db : DB) (now : Nat) (auditOk : Bool)
    (credentials : Option Jwt) (client : ClientInfo) :
    DB × Except HTTPError String :=
  match get_current_user settings db now credentials with
  | .error e => (db, .error e)
  | .ok current_user =>
    match get_current_user_token settings now credentials with
    | .error e => (db, .error e)
    | .ok token_data =>
      match validate_session settings db now credentials with
      | .error e => (db, .error e)
      | .ok _ =>
        match revoke_session db now token_data.jti with
        | (db1, success) =>
          if success then
            match create_audit_log db1 auditOk (some current_user.id) "logout"
                "success" none none client now with
            | .error _ => (db1, .error logoutError500)
            | .ok db2 => (db2, .ok "로그아웃되었습니다")
          else
            (db1, .error { status := 400, detail := "로그아웃 처리 중 오류가 발생했습니다" })

/-- Shape of the refresh endpoint's intended response dict. -/
structure RefreshResponse where
  access_token : Jwt
  refresh_token : Jwt
  token_type : String := "bearer"
  expires_in : Nat
  deriving Repr, DecidableEq

/-- The refresh endpoint's generic 500. -/
def refreshError500 : HTTPError :=
  { status := 500, detail := "토큰 갱신 중 오류가 발생했습니다" }

/-- `/auth/refresh`.  `verify_token` is called on the presented token; when
it raises, the `except HTTPException: raise` clause re-raises the 401.  When
it succeeds, the next source line is `token_payload.get("type")` —
`token_payload` is a pydantic `TokenData` model, which has no `get` method
(and carries no `type` field at all), so the attribute access raises
`AttributeError`, which falls through to the `except Exception` handler and
becomes the generic 500.  No later line of the endpoint (user lookup, token
issuance, session creation, audit) is reachable. -/
def refresh_token_endpoint (settings : Settings) (db : DB) (gen now : Nat)
    (refresh_tok : Jwt) : (DB × Nat) × Except HTTPError RefreshResponse :=
  match verify_token settings now refresh_tok with
  | .error e => ((db, gen), .error e)
  | .ok _ => ((db, gen), .error refreshError500)

/-! ## State mutations of the core

Every write the core performs on the store is one of: a session insert
(login/refresh), a session revocation (logout), an audit append, or a
last-login stamp.  `CoreOp`/`applyOps` range over arbitrary interleavings of
these, for the temporal claims. -/

/-- One storage mutation of the core. -/
inductive CoreOp where
  | createS (settings : Settings) (user_id : Int) (token_jti : Option String)
      (client : ClientInfo) (now : Nat)
  | revokeS (now : Nat) (token_jti : Option String)
  | audit (auditOk : Bool) (user_id : Option Int) (action result : String)
      (resource details : Option String) (client : ClientInfo) (now : Nat)
  | lastLogin (user_id : Int) (now : Nat)
  deriving Repr

/-- Apply one mutation; a failing insert leaves the store unchanged
(rollback). -/
def applyOp (db : DB) : CoreOp → DB
  | .createS settings uid jti client now =>
    match create_session settings db uid jti client now with
    | .error _ => db
    | .ok (db1, _) => db1
  | .revokeS now jti => (revoke_session db now jti).1
  | .audit auditOk uid action result resource details client now =>
    match create_audit_log db auditOk uid action result resource details client now with
    | .error _ => db
    | .ok db1 => db1
  | .lastLogin uid now => update_last_login db uid now

/-- Apply a sequence of core mutations. -/
def applyOps (db : DB) (ops : List CoreOp) : DB :=
  ops.foldl applyOp db

/-- The ledger state after a revocation of `j`: a record for `j` exists and
every record for `j` is inactive. -/
def RevokedIn (db : DB) (j : String) : Prop :=
  (∃ s ∈ db.sessions, s.token_jti = j) ∧
    ∀ s ∈ db.sessions, s.token_jti = j → s.is_active = false

/-! ## Concrete fixture

The full-lifecycle scenario of the spec: one active principal `alice`, a
login at time 1000 under the default settings, giving one live session and
an access/refresh token pair. -/

/-- Default configuration. -/
def settings0 : Settings := {}

/-- The principal of the scenario. -/
def alice : User :=
  { id := 1
    username := "alice"
    email := some "alice@example.com"
    hashed_password := "bcrypt$Abc12345!"
    is_active := true }

/-- The password oracle of the scenario: the stored hash verifies exactly
against the original password. -/
def vp0 : String → String → Bool := fun p h => h == "bcrypt$" ++ p

/-- Initial store: just `alice`. -/
def db0 : DB := { users := [alice] }

/-- Client context of the scenario. -/
def client0 : ClientInfo := {}

/-- The login call of the scenario. -/
def loginResult0 : (DB × Nat) × Except HTTPError LoginResponse :=
  login settings0 vp0 db0 0 1000 true "alice" "Abc12345!" client0

/-- Store after the login. -/
def db1 : DB := loginResult0.1.1

/-- Placeholder response (never used: the scenario login succeeds). -/
def dummyResponse : LoginResponse :=
  { access_token := { payload := {}, key := "", alg := "" }
    refresh_token := { payload := {}, key := "", alg := "" }
    expires_in := 0
    user := UserResponse.from_orm alice }

/-- The scenario's login response. -/
def resp0 : LoginResponse :=
  match loginResult0.2 with
  | .ok r => r
  | .error _ => dummyResponse

/-- The scenario's access token. -/
def tokA : Jwt := resp0.access_token

/-- The scenario's refresh token. -/
def tokR : Jwt := resp0.refresh_token

/-- Store after revoking the scenario session at time 2000 (logout's
`revoke_session`). -/
def db2 : DB := (revoke_session db1 2000 (some (uuid4 0))).1

/-- A configuration with a 60-minute access-token TTL. -/
def settings60 : Settings := { access_token_expire_minutes := 60 }

/-- A hand-built token signed with the default secret carrying only the
`sub` claim (no `username`, `jti` or `type`), expiring at time 500. -/
def tokBare : Jwt :=
  { payload := { sub := some "7", iat := 0, exp := 500 }
    key := "your-secret-key-change-in-production"
    alg := "HS256" }

/-- The scenario login under the 60-minute configuration. -/
def loginResult60 : (DB × Nat) × Except HTTPError LoginResponse :=
  login settings60 vp0 db0 0 1000 true "alice" "Abc12345!" client0

/-- Its response. -/
def resp60 : LoginResponse :=
  match loginResult60.2 with
  | .ok r => r
  | .error _ => dummyResponse

/-! ## Helper lemmas -/

/-- Distinct issuance-counter values give distinct token identifiers. -/
theorem uuid4_injective : Function.Injective uuid4 := by
  intro n m h
  have hd : (uuid4 n).data = (uuid4 m).data := by rw [h]
  simp only [uuid4] at hd
  have hlen := congrArg List.length hd
  simpa using hlen

/-- `verify_token` fails only with the uniform credentials 401. -/
theorem verify_token_error_eq {settings : Settings} {now : Nat} {tok : Jwt}
    {e : HTTPError} (h : verify_token settings now tok = .error e) :
    e = credentialsException := by
  unfold verify_token at h
  split at h
  · exact (Except.error.injEq _ _).mp h |>.symm
  · split at h
    · exact (Except.error.injEq _ _).mp h |>.symm
    · split at h
      · exact (Except.error.injEq _ _).mp h |>.symm
      · cases h

/-- On success, `verify_token` copies the payload's `jti` claim verbatim. -/
theorem verify_token_ok_fields {settings : Settings} {now : Nat} {tok : Jwt}
    {td : TokenData} (h : verify_token settings now tok = .ok td) :
    td.jti = tok.payload.jti ∧ td.username = tok.payload.username := by
  unfold verify_token at h
  split at h
  · cases h
  · rename_i payload heq
    have hp : payload = tok.payload := by
      unfold jwtDecode at heq
      split at heq
      · cases heq
      · split at heq
        · cases heq
        · cases heq; rfl
    subst hp
    split at h
    · cases h
    · split at h
      · cases h
      · cases h
        exact ⟨rfl, rfl⟩

/-- Every failure of `get_current_user_token` is a 401. -/
theorem get_current_user_token_error_status {settings : Settings} {now : Nat}
    {credentials : Option Jwt} {e : HTTPError}
    (h : get_current_user_token settings now credentials = .error e) :
    e.status = 401 := by
  unfold get_current_user_token at h
  split at h
  · cases h; rfl
  · rw [verify_token_error_eq h]; rfl

/-- Every failure of `get_current_user` is a 401. -/
theorem get_current_user_error_status {settings : Settings} {db : DB}
    {now : Nat} {credentials : Option Jwt} {e : HTTPError}
    (h : get_current_user settings db now credentials = .error e) :
    e.status = 401 := by
  unfold get_current_user at h
  split at h
  · rename_i e2 heq
    cases h
    exact get_current_user_token_error_status heq
  · split at h
    · cases h; rfl
    · split at h
      · cases h; rfl
      · cases h

/-- Every failure of `validate_session` is a 401. -/
theorem validate_session_error_status {settings : Settings} {db : DB}
    {now : Nat} {credentials : Option Jwt} {e : HTTPError}
    (h : validate_session settings db now credentials = .error e) :
    e.status = 401 := by
  unfold validate_session at h
  split at h
  · rename_i e2 heq
    cases h
    exact get_current_user_token_error_status heq
  · split at h
    · cases h; rfl
    · split at h
      · cases h; rfl
      · split at h
        · cases h; rfl
        · cases h

/-- `update_last_login` touches only the users table. -/
theorem update_last_login_sessions (db : DB) (uid : Int) (now : Nat) :
    (update_last_login db uid now).sessions = db.sessions := rfl

/-- A successful audit append touches only the audit table. -/
theorem create_audit_log_ok_tables {db db1 : DB} {auditOk : Bool}
    {uid : Option Int} {action result : String} {resource details : Option String}
    {client : ClientInfo} {now : Nat}
    (h : create_audit_log db auditOk uid action result resource details client now = .ok db1) :
    db1.sessions = db.sessions ∧ db1.users = db.users := by
  unfold create_audit_log at h
  split at h
  · cases h; exact ⟨rfl, rfl⟩
  · cases h

/-- `revokeMark` never changes the key column. -/
theorem revokeMark_token_jti (now : Nat) (token_jti : Option String)
    (s : UserSession) : (revokeMark now token_jti s).token_jti = s.token_jti := by
  unfold revokeMark
  split <;> rfl

/-- `revokeMark` leaves a matching row inactive. -/
theorem revokeMark_matched_inactive {now : Nat} {token_jti : Option String}
    {s : UserSession} (h : (some s.token_jti == token_jti) = true) :
    (revokeMark now token_jti s).is_active = false := by
  unfold revokeMark
  rw [if_pos h]

/-- `revokeMark` leaves a non-matching row untouched. -/
theorem revokeMark_unmatched {now : Nat} {token_jti : Option String}
    {s : UserSession} (h : ¬(some s.token_jti == token_jti) = true) :
    revokeMark now token_jti s = s := by
  unfold revokeMark
  rw [if_neg h]

/-- A successful revoke leaves the ledger revoked for that identifier: the
record still exists and every record with that identifier is inactive. -/
theorem revoke_session_true_revokedIn {db db1 : DB} {t : Nat} {j : String}
    (h : revoke_session db t (some j) = (db1, true)) : RevokedIn db1 j := by
  unfold revoke_session at h
  have hdb : db1 = { db with sessions := db.sessions.map (revokeMark t (some j)) } := by
    have h1 := congrArg Prod.fst h
    exact h1.symm
  have hcnt : 0 < db.sessions.countP (fun s => some s.token_jti == some j) := by
    have h2 := congrArg Prod.snd h
    simp only [decide_eq_true_eq] at h2
    exact h2
  obtain ⟨s, hs, hps⟩ := List.countP_pos_iff.mp hcnt
  have hsj : s.token_jti = j := by simpa using hps
  subst hdb
  constructor
  · refine ⟨revokeMark t (some j) s, List.mem_map_of_mem _ hs, ?_⟩
    rw [revokeMark_token_jti]
    exact hsj
  · intro s2 hs2 hj2
    simp only [List.mem_map] at hs2
    obtain ⟨s0, hs0, hmap⟩ := hs2
    rw [← hmap] at hj2 ⊢
    rw [revokeMark_token_jti] at hj2
    exact revokeMark_matched_inactive (by simp [hj2])

/-- In a revoked ledger state, `get_active_session` reports nothing. -/
theorem revokedIn_get_active_none {db : DB} {j : String} (h : RevokedIn db j)
    (now : Nat) : get_active_session db now (some j) = none := by
  unfold get_active_session
  refine List.find?_eq_none.mpr ?_
  intro s hs hp
  simp only [Bool.and_eq_true, beq_iff_eq, Option.some.injEq,
    decide_eq_true_eq] at hp
  have hinact := h.2 s hs hp.1.1
  rw [hinact] at hp
  exact Bool.false_ne_true hp.1.2

/-- The revoked state of a token identifier is preserved by every later core
mutation: session inserts cannot reuse the identifier (unique key), revokes
keep records inactive, and audit/last-login writes do not touch the ledger. -/
theorem revokedIn_applyOp {db : DB} {j : String} (h : RevokedIn db j)
    (op : CoreOp) : RevokedIn (applyOp db op) j := by
  obtain ⟨⟨s0, hs0, hj0⟩, hall⟩ := h
  cases op with
  | createS st uid jti client now =>
    simp only [applyOp]
    split
    · exact ⟨⟨s0, hs0, hj0⟩, hall⟩
    · rename_i db1 r heq
      unfold create_session at heq
      match jti with
      | none => cases heq
      | some j2 =>
        simp only at heq
        split at heq
        · cases heq
        · rename_i hany
          cases heq
          have hne : j2 ≠ j := by
            intro hj
            subst hj
            exact hany (List.any_eq_true.mpr ⟨s0, hs0, by simp [hj0]⟩)
          constructor
          · exact ⟨s0, by simp [hs0], hj0⟩
          · intro s2 hs2 hj2
            simp only [List.mem_append, List.mem_singleton] at hs2
            cases hs2 with
            | inl hmem => exact hall s2 hmem hj2
            | inr hrec =>
              subst hrec
              simp only at hj2
              exact absurd hj2 hne
  | revokeS now jti =>
    simp only [applyOp]
    unfold revoke_session
    constructor
    · refine ⟨revokeMark now jti s0, List.mem_map_of_mem _ hs0, ?_⟩
      rw [revokeMark_token_jti]
      exact hj0
    · intro s2 hs2 hj2
      simp only [List.mem_map] at hs2
      obtain ⟨t0, ht0, hmap⟩ := hs2
      rw [← hmap] at hj2 ⊢
      rw [revokeMark_token_jti] at hj2
      by_cases hc : (some t0.token_jti == jti) = true
      · exact revokeMark_matched_inactive hc
      · rw [revokeMark_unmatched hc]
        exact hall t0 ht0 hj2
  | audit auditOk uid action result resource details client now =>
    simp only [applyOp]
    split
    · exact ⟨⟨s0, hs0, hj0⟩, hall⟩
    · rename_i db1 heq
      have ht := create_audit_log_ok_tables heq
      have hmem : s0 ∈ db1.sessions := by rw [ht.1]; exact hs0
      refine ⟨⟨s0, hmem, hj0⟩, ?_⟩
      intro s2 hs2 hj2
      rw [ht.1] at hs2
      exact hall s2 hs2 hj2
  | lastLogin uid now =>
    simp only [applyOp]
    have hmem : s0 ∈ (update_last_login db uid now).sessions := by
      rw [update_last_login_sessions]; exact hs0
    refine ⟨⟨s0, hmem, hj0⟩, ?_⟩
    intro s2 hs2 hj2
    rw [update_last_login_sessions] at hs2
    exact hall s2 hs2 hj2

/-- Closure of the revoked state under arbitrary sequences of core
mutations. -/
theorem revokedIn_applyOps {db : DB} {j : String} (h : RevokedIn db j)
    (ops : List CoreOp) : RevokedIn (applyOps db ops) j := by
  induction ops generalizing db with
  | nil => exact h
  | cons op rest ih => exact ih (revokedIn_applyOp h op)

/-- A bearer credential is handed to `verify_token` unchanged. -/
theorem get_current_user_token_some {settings : Settings} {now : Nat}
    {tok : Jwt} {td : TokenData}
    (h : get_current_user_token settings now (some tok) = .ok td) :
    verify_token settings now tok = .ok td := h

/-- In a revoked ledger state, the verify endpoint answers 401 on any token
carrying the revoked identifier. -/
theorem revokedIn_verify_endpoint_401 {settings : Settings} {db : DB}
    {now : Nat} {tok : Jwt} {j : String} (hrev : RevokedIn db j)
    (hjti : tok.payload.jti = some j) :
    ∃ e, verify_token_endpoint settings db now (some tok) = .error e ∧
      e.status = 401 := by
  unfold verify_token_endpoint
  cases hv : verify_token settings now tok with
  | error e =>
    refine ⟨e, by simp [hv], ?_⟩
    rw [verify_token_error_eq hv]
    rfl
  | ok td =>
    have hjti2 : td.jti = some j := by
      rw [(verify_token_ok_fields hv).1, hjti]
    cases hu : get_user_by_id db td.user_id with
    | none =>
      exact ⟨{ status := 401, detail := "유효하지 않은 사용자입니다" },
        by simp [hv, hu], rfl⟩
    | some user =>
      by_cases ha : user.is_active = false
      · exact ⟨{ status := 401, detail := "유효하지 않은 사용자입니다" },
          by simp [hv, hu, ha], rfl⟩
      · have hg : get_active_session db now td.jti = none := by
          rw [hjti2]
          exact revokedIn_get_active_none hrev now
        exact ⟨{ status := 401, detail := "세션이 만료되었습니다" },
          by simp [hv, hu, ha, hg], rfl⟩

/-- In a revoked ledger state, the logout endpoint answers 401 on any token
carrying the revoked identifier (its `validate_session` dependency fails). -/
theorem revokedIn_logout_401 {settings : Settings} {db : DB} {now : Nat}
    {tok : Jwt} {j : String} {auditOk : Bool} {client : ClientInfo}
    (hrev : RevokedIn db j) (hjti : tok.payload.jti = some j) :
    ∃ e, (logout settings db now auditOk (some tok) client).2 = .error e ∧
      e.status = 401 := by
  unfold logout
  cases hcu : get_current_user settings db now (some tok) with
  | error e => exact ⟨e, by simp [hcu], get_current_user_error_status hcu⟩
  | ok current_user =>
    cases hct : get_current_user_token settings now (some tok) with
    | error e =>
      exact ⟨e, by simp [hcu, hct], get_current_user_token_error_status hct⟩
    | ok td =>
      cases hvs : validate_session settings db now (some tok) with
      | error e =>
        exact ⟨e, by simp [hcu, hct, hvs], validate_session_error_status hvs⟩
      | ok s =>
        exfalso
        have hjti2 : td.jti = some j := by
          rw [(verify_token_ok_fields (get_current_user_token_some hct)).1, hjti]
        unfold validate_session at hvs
        rw [hct] at hvs
        simp only [hjti2] at hvs
        split at hvs
        · cases hvs
        · rw [revokedIn_get_active_none hrev now] at hvs
          cases hvs

/-- The CurrentPrincipal path reads only the users table: its answer is
independent of the session ledger and the audit log. -/
theorem get_current_user_info_ignores_ledger (settings : Settings) (db : DB)
    (now : Nat) (credentials : Option Jwt) (sessions2 : List UserSession)
    (audits2 : List AuditLog) :
    get_current_user_info settings
        { db with sessions := sessions2, audits := audits2 } now credentials =
      get_current_user_info settings db now credentials := rfl

/-- The revoke update reports success iff a record with the identifier
exists (active or not). -/
theorem revoke_session_true_iff (db : DB) (t : Nat) (j : String) :
    (revoke_session db t (some j)).2 = true ↔
      ∃ s ∈ db.sessions, s.token_jti = j := by
  unfold revoke_session
  simp only [decide_eq_true_eq, List.countP_pos_iff, beq_iff_eq,
    Option.some.injEq]

/-- The ledger after a revoke is the row-wise `revokeMark` image. -/
theorem revoke_session_fst_sessions (db : DB) (t : Nat) (q : Option String) :
    (revoke_session db t q).1.sessions = db.sessions.map (revokeMark t q) := rfl

/-- A signed, unexpired token with a `sub` claim passes `verify_token` with
the payload's claims copied out. -/
theorem verify_token_ok_of_valid {settings : Settings} {now : Nat} {tok : Jwt}
    {sstr : String} {uid : Int}
    (hkey : tok.key = settings.secret_key)
    (halg : tok.alg = settings.algorithm)
    (hexp : now ≤ tok.payload.exp)
    (hsub : tok.payload.sub = some sstr)
    (hparse : parseIntStr sstr = some uid) :
    verify_token settings now tok =
      .ok { user_id := uid, username := tok.payload.username,
            jti := tok.payload.jti } := by
  have hnd : ¬(tok.key ≠ settings.secret_key ∨ tok.alg ∉ [settings.algorithm]) := by
    simp [hkey, halg]
  have hne : ¬(tok.payload.exp < now) := Nat.not_lt.mpr hexp
  unfold verify_token jwtDecode
  rw [if_neg hnd, if_neg hne]
  simp [hsub, hparse]

/-- Inversion of a successful session insert. -/
theorem create_session_ok_spec {settings : Settings} {db db1 : DB}
    {user_id : Int} {jtiq : Option String} {client : ClientInfo} {now : Nat}
    {r : UserSession}
    (h : create_session settings db user_id jtiq client now = .ok (db1, r)) :
    ∃ j, jtiq = some j ∧ r.token_jti = j ∧ r.user_id = user_id ∧
      r.expires_at = now + 60 * settings.access_token_expire_minutes ∧
      r.is_active = true ∧
      db1 = { db with sessions := db.sessions ++ [r] } ∧
      ∀ s ∈ db.sessions, s.token_jti ≠ j := by
  unfold create_session at h
  match jtiq with
  | none => cases h
  | some j =>
    simp only at h
    split at h
    · cases h
    · rename_i hany
      cases h
      refine ⟨j, rfl, rfl, rfl, rfl, rfl, rfl, ?_⟩
      intro s hs hj
      exact hany (List.any_eq_true.mpr ⟨s, hs, by simp [hj]⟩)

/-- An audit append with a healthy store succeeds and only appends. -/
theorem create_audit_log_true_ok (db : DB) (uid : Option Int)
    (action result : String) (resource details : Option String)
    (client : ClientInfo) (now : Nat) :
    create_audit_log db true uid action result resource details client now =
      .ok { db with audits := db.audits ++
        [{ user_id := uid, action := action, resource := resource,
           result := result, details := details,
           ip_address := client.ip_address, user_agent := client.user_agent,
           created_at := now }] } := rfl

/-- An audit append with a failing store raises. -/
theorem create_audit_log_false (db : DB) (uid : Option Int)
    (action result : String) (resource details : Option String)
    (client : ClientInfo) (now : Nat) :
    create_audit_log db false uid action result resource details client now =
      .error () := rfl

/-- Inversion of a successful login: recovers the resolved principal, the
intermediate token-codec and ledger steps, and the exact shape of the
response and of the one appended session record. -/
theorem login_ok_inversion {settings : Settings}
    {vp : String → String → Bool} {db db2 : DB} {gen gen2 now : Nat}
    {auditOk : Bool} {username password : String} {client : ClientInfo}
    {resp : LoginResponse}
    (h : login settings vp db gen now auditOk username password client =
      ((db2, gen2), .ok resp)) :
    ∃ user td r db1,
      get_user_by_username_or_email db username = some user ∧
      user.is_active = true ∧
      vp password user.hashed_password = true ∧
      auditOk = true ∧
      verify_token settings now
        (create_access_token settings
          { sub := toString user.id, username := user.username }
          (some (30 * 60)) now gen).1 = .ok td ∧
      create_session settings db user.id td.jti client now = .ok (db1, r) ∧
      td.jti = some (uuid4 gen) ∧
      db2.sessions = db.sessions ++ [r] ∧
      gen2 = gen + 2 ∧
      resp.access_token = (create_access_token settings
        { sub := toString user.id, username := user.username }
        (some (30 * 60)) now gen).1 ∧
      resp.refresh_token = (create_refresh_token settings
        { sub := toString user.id, username := user.username }
        now (gen + 1)).1 ∧
      resp.expires_in = get_token_expire_time settings := by
  unfold login at h
  split at h
  · split at h <;> cases h
  · rename_i user huser
    split at h
    · split at h <;> cases h
    · rename_i hactive
      split at h
      · split at h <;> cases h
      · rename_i hvp
        simp only [create_access_token, create_refresh_token] at h
        split at h
        · cases h
        · rename_i td hv
          split at h
          · cases h
          · rename_i db1 r hc
            split at h
            · cases h
            · rename_i db3 haud
              cases h
              have hauditOk : auditOk = true := by
                unfold create_audit_log at haud
                split at haud
                · assumption
                · cases haud
              have hjti : td.jti = some (uuid4 gen) := by
                have hh := (verify_token_ok_fields hv).1
                simpa [create_access_token] using hh
              have hsess3 := (create_audit_log_ok_tables haud).1
              obtain ⟨j, hjq, hrj, hru, hre, hra, hdb1, hfresh⟩ :=
                create_session_ok_spec hc
              refine ⟨user, td, r, db1, huser, ?_, ?_, hauditOk, hv, hc, hjti,
                ?_, rfl, rfl, rfl, rfl⟩
              · simpa using hactive
              · simpa using hvp
              · rw [hsess3, update_last_login_sessions, hdb1]

/-! ## Claims -/

/-- Claim C1, counterexample.  The claim says every bearer-authenticating
operation — Verify, Logout, and the current-user endpoint — fails with
Unauthenticated once the token's session is revoked.  In the concrete
lifecycle scenario the session of the login-issued access token is revoked
(revoke returns `true`), the token is far from its natural expiry
(`exp = 2800 > 2100`), and yet the current-user endpoint still returns the
principal's claims, because `get_current_user` never consults the session
ledger. -/
theorem revoked_session_current_user_endpoint_still_succeeds :
    (revoke_session db1 2000 (some (uuid4 0))).2 = true ∧
    tokA.payload.jti = some (uuid4 0) ∧
    2100 ≤ tokA.payload.exp ∧
    get_current_user_info settings0 db2 2100 (some tokA) =
      .ok { id := 1
            username := "alice"
            email := some "alice@example.com"
            is_active := true
            is_admin := false
            created_at := 0
            last_login := some 1000 } := by
  refine ⟨rfl, rfl, by decide, rfl⟩

/-- Claim C1, amended.  After `revoke(token_id)` succeeds, and under any
further sequence of core storage mutations, every Verify and every Logout
call on a token carrying that identifier fails with a 401 Unauthenticated —
but the current-user endpoint is NOT covered: its answer is independent of
the session ledger, so it keeps returning the principal's claims for a
revoked but unexpired token (see the counterexample). -/
theorem revoked_session_verify_and_logout_unauthenticated
    (settings : Settings) (db db1 : DB) (t0 : Nat) (j : String)
    (ops : List CoreOp) (now : Nat) (tok : Jwt) (auditOk : Bool)
    (client : ClientInfo)
    (hrevoke : revoke_session db t0 (some j) = (db1, true))
    (hjti : tok.payload.jti = some j) :
    (∃ e, verify_token_endpoint settings (applyOps db1 ops) now (some tok) =
        .error e ∧ e.status = 401) ∧
    (∃ e, (logout settings (applyOps db1 ops) now auditOk (some tok) client).2 =
        .error e ∧ e.status = 401) ∧
    ∀ sessions2 audits2,
      get_current_user_info settings
          { applyOps db1 ops with sessions := sessions2, audits := audits2 }
          now (some tok) =
        get_current_user_info settings (applyOps db1 ops) now (some tok) := by
  have hrev : RevokedIn (applyOps db1 ops) j :=
    revokedIn_applyOps (revoke_session_true_revokedIn hrevoke) ops
  exact ⟨revokedIn_verify_endpoint_401 hrev hjti,
    revokedIn_logout_401 hrev hjti,
    fun sessions2 audits2 =>
      get_current_user_info_ignores_ledger settings (applyOps db1 ops) now
        (some tok) sessions2 audits2⟩

/-- Claim C1, witness: the amended theorem applied to the concrete scenario
(revocation at time 2000, verification attempts at time 2100, no
interleaved operations). -/
theorem revoked_session_verify_and_logout_unauthenticated_witness :
    (∃ e, verify_token_endpoint settings0 (applyOps db2 []) 2100 (some tokA) =
        .error e ∧ e.status = 401) ∧
    (∃ e, (logout settings0 (applyOps db2 []) 2100 true (some tokA) client0).2 =
        .error e ∧ e.status = 401) ∧
    ∀ sessions2 audits2,
      get_current_user_info settings0
          { applyOps db2 [] with sessions := sessions2, audits := audits2 }
          2100 (some tokA) =
        get_current_user_info settings0 (applyOps db2 []) 2100 (some tokA) :=
  revoked_session_verify_and_logout_unauthenticated settings0 db1 db2 2000
    (uuid4 0) [] 2100 tokA true client0 rfl rfl

/-- Claim C2: for a token id with an existing session record, a successful
`revoke` makes `get_active` return none at any later (or earlier) call time,
while `parse_and_verify` on the original token string still succeeds as long
as the token's own expiry has not passed: revocation removes liveness but
not authenticity. -/
theorem revoke_removes_liveness_not_authenticity
    (settings : Settings) (db : DB) (t0 now now2 : Nat) (j : String)
    (tok : Jwt) (sstr : String) (uid : Int)
    (hexists : ∃ s ∈ db.sessions, s.token_jti = j)
    (hkey : tok.key = settings.secret_key)
    (halg : tok.alg = settings.algorithm)
    (hexp : now ≤ tok.payload.exp)
    (hsub : tok.payload.sub = some sstr)
    (hparse : parseIntStr sstr = some uid)
    (hjti : tok.payload.jti = some j) :
    (revoke_session db t0 (some j)).2 = true ∧
    get_active_session (revoke_session db t0 (some j)).1 now2 (some j) = none ∧
    verify_token settings now tok =
      .ok { user_id := uid, username := tok.payload.username, jti := some j } := by
  have htrue : (revoke_session db t0 (some j)).2 = true :=
    (revoke_session_true_iff db t0 j).mpr hexists
  have hpair : revoke_session db t0 (some j) =
      ((revoke_session db t0 (some j)).1, true) := by
    conv_lhs => rw [← Prod.mk.eta (p := revoke_session db t0 (some j))]
    rw [htrue]
  have hrev := revoke_session_true_revokedIn hpair
  refine ⟨htrue, revokedIn_get_active_none hrev now2, ?_⟩
  rw [verify_token_ok_of_valid hkey halg hexp hsub hparse, hjti]

/-- Claim C2, witness: the lifecycle scenario — revoking the login session
at time 2000, then checking liveness and authenticity at time 2100, before
the token's expiry 2800. -/
theorem revoke_removes_liveness_not_authenticity_witness :
    (revoke_session db1 2000 (some (uuid4 0))).2 = true ∧
    get_active_session (revoke_session db1 2000 (some (uuid4 0))).1 2100
      (some (uuid4 0)) = none ∧
    verify_token settings0 2100 tokA =
      .ok { user_id := 1, username := some "alice", jti := some (uuid4 0) } :=
  revoke_removes_liveness_not_authenticity settings0 db1 2000 2100 2100
    (uuid4 0) tokA "1" 1 (by decide) rfl rfl (by decide) rfl rfl rfl

/-- Claim C3, counterexample.  The claim says two successive revokes return
`(true, then false)`.  On the concrete post-login store the second revoke
also returns `true`: the update filters on `token_jti` alone, so the
already-inactive row is matched (and its `revoked_at` re-stamped) again. -/
theorem second_revoke_also_returns_true :
    (revoke_session db1 2000 (some (uuid4 0))).2 = true ∧
    (revoke_session (revoke_session db1 2000 (some (uuid4 0))).1 2001
        (some (uuid4 0))).2 = true ∧
    (revoke_session (revoke_session db1 2000 (some (uuid4 0))).1 2001
        (some (uuid4 0))).1.sessions.map UserSession.revoked_at = [some 2001] := by
  refine ⟨rfl, rfl, rfl⟩

/-- Claim C3, amended: for a token id with an existing session record, both
the first and the second revoke return `true` — the second call is not a
reported no-op; it matches the record again (and re-stamps its revocation
time). -/
theorem revoke_twice_returns_true_true (db : DB) (t1 t2 : Nat) (j : String)
    (hexists : ∃ s ∈ db.sessions, s.token_jti = j) :
    (revoke_session db t1 (some j)).2 = true ∧
    (revoke_session (revoke_session db t1 (some j)).1 t2 (some j)).2 = true := by
  refine ⟨(revoke_session_true_iff db t1 j).mpr hexists, ?_⟩
  rw [revoke_session_true_iff]
  obtain ⟨s, hs, hsj⟩ := hexists
  refine ⟨revokeMark t1 (some j) s, ?_, ?_⟩
  · rw [revoke_session_fst_sessions]
    exact List.mem_map_of_mem _ hs
  · rw [revokeMark_token_jti]
    exact hsj

/-- Claim C3, witness: the amended theorem on the concrete post-login
store. -/
theorem revoke_twice_returns_true_true_witness :
    (revoke_session db1 2000 (some (uuid4 0))).2 = true ∧
    (revoke_session (revoke_session db1 2000 (some (uuid4 0))).1 2001
        (some (uuid4 0))).2 = true :=
  revoke_twice_returns_true_true db1 2000 2001 (uuid4 0) (by decide)

/-- Claim C8: `get_active(token_id)` returns a record iff a record with that
id exists that is marked active and whose expiry is strictly later than the
call time; any returned record satisfies exactly these properties; and when
every active record with the id is already past its expiry, the lookup
treats it as absent.  The embedded `get_active_session` is a pure query, so
the active flag of a lazily-expired record is never flipped by it. -/
theorem get_active_session_iff (db : DB) (now : Nat) (j : String) :
    ((get_active_session db now (some j)).isSome ↔
      ∃ s ∈ db.sessions,
        s.token_jti = j ∧ s.is_active = true ∧ now < s.expires_at) ∧
    (∀ s, get_active_session db now (some j) = some s →
      s.token_jti = j ∧ s.is_active = true ∧ now < s.expires_at) ∧
    ((∀ s ∈ db.sessions, s.token_jti = j → s.is_active = true →
        s.expires_at ≤ now) →
      get_active_session db now (some j) = none) := by
  refine ⟨?_, ?_, ?_⟩
  · unfold get_active_session
    rw [List.find?_isSome]
    constructor
    · rintro ⟨s, hs, hp⟩
      simp only [Bool.and_eq_true, beq_iff_eq, Option.some.injEq,
        decide_eq_true_eq] at hp
      exact ⟨s, hs, hp.1.1, hp.1.2, hp.2⟩
    · rintro ⟨s, hs, h1, h2, h3⟩
      exact ⟨s, hs, by simp [h1, h2, h3]⟩
  · intro s hfind
    have hp := List.find?_some hfind
    simp only [Bool.and_eq_true, beq_iff_eq, Option.some.injEq,
      decide_eq_true_eq] at hp
    exact ⟨hp.1.1, hp.1.2, hp.2⟩
  · intro hexp
    unfold get_active_session
    refine List.find?_eq_none.mpr ?_
    intro s hs hp
    simp only [Bool.and_eq_true, beq_iff_eq, Option.some.injEq,
      decide_eq_true_eq] at hp
    exact absurd hp.2 (Nat.not_lt.mpr (hexp s hs hp.1.1 hp.1.2))

/-- Claim C8, witness: in the post-login store the session is reported at
time 1500 (active, expiry 2800); at time 2900 the record is lazily expired —
its active flag is still `true` but the lookup reports absence. -/
theorem get_active_session_iff_witness :
    (get_active_session db1 1500 (some (uuid4 0))).isSome = true ∧
    get_active_session db1 2900 (some (uuid4 0)) = none ∧
    db1.sessions.map UserSession.is_active = [true] :=
  ⟨(get_active_session_iff db1 1500 (uuid4 0)).1.mpr (by decide),
    (get_active_session_iff db1 2900 (uuid4 0)).2.2 (by decide),
    by decide⟩

/-- Claim C10: token parsing enforces only the `sub` claim — a correctly
signed, unexpired token with no `username`, `jti` or `type` claims passes
`verify_token`, coming back with those fields empty; the missing `jti` is
rejected only afterwards, by `validate_session`, with its own 401. -/
theorem verify_token_requires_only_sub
    (settings : Settings) (db : DB) (now : Nat) (tok : Jwt)
    (sstr : String) (uid : Int)
    (hkey : tok.key = settings.secret_key)
    (halg : tok.alg = settings.algorithm)
    (hexp : now ≤ tok.payload.exp)
    (hsub : tok.payload.sub = some sstr)
    (hparse : parseIntStr sstr = some uid)
    (husr : tok.payload.username = none)
    (hjti : tok.payload.jti = none)
    (_htyp : tok.payload.type = none) :
    verify_token settings now tok =
      .ok { user_id := uid, username := none, jti := none } ∧
    validate_session settings db now (some tok) =
      .error { status := 401, detail := "유효하지 않은 토큰입니다" } := by
  have hv := verify_token_ok_of_valid hkey halg hexp hsub hparse
  rw [husr, hjti] at hv
  refine ⟨hv, ?_⟩
  unfold validate_session get_current_user_token
  simp [hv]

/-- Claim C10, witness: the bare token `tokBare` (only `sub = "7"`) under
the default settings at time 100. -/
theorem verify_token_requires_only_sub_witness :
    verify_token settings0 100 tokBare =
      .ok { user_id := 7, username := none, jti := none } ∧
    validate_session settings0 db0 100 (some tokBare) =
      .error { status := 401, detail := "유효하지 않은 토큰입니다" } :=
  verify_token_requires_only_sub settings0 db0 100 tokBare "7" 7 rfl rfl
    (by decide) rfl rfl rfl rfl rfl

/-- Claim C4, counterexample.  The claim says an audit-write failure never
changes the outcome of the primary operation.  On the concrete scenario the
very same login succeeds when the audit store is healthy and returns the
generic 500 when the audit write fails — and the unknown-user login, which
would answer 401, also turns into a 500. -/
theorem audit_failure_changes_login_outcome :
    (login settings0 vp0 db0 0 1000 true "alice" "Abc12345!" client0).2 =
      .ok resp0 ∧
    (login settings0 vp0 db0 0 1000 false "alice" "Abc12345!" client0).2 =
      .error loginError500 ∧
    (login settings0 vp0 db0 0 1000 true "bob" "pw" client0).2 =
      .error badCredentials401 ∧
    (login settings0 vp0 db0 0 1000 false "bob" "pw" client0).2 =
      .error loginError500 :=
  ⟨rfl, rfl, rfl, rfl⟩

/-- Claim C4, amended: an audit-store failure DOES change the outcome.
`create_audit_log` rolls back and re-raises, and every login path writes an
audit record, so with a failing audit store a login that would succeed — and
likewise one that would answer 401 for an unknown user — returns the generic
500 instead. -/
theorem audit_failure_aborts_login (settings : Settings)
    (vp : String → String → Bool) (db : DB) (gen now : Nat)
    (username password : String) (client : ClientInfo) :
    (∀ db2 gen2 resp,
      login settings vp db gen now true username password client =
        ((db2, gen2), .ok resp) →
      (login settings vp db gen now false username password client).2 =
        .error loginError500) ∧
    (get_user_by_username_or_email db username = none →
      (login settings vp db gen now false username password client).2 =
        .error loginError500) := by
  constructor
  · intro db2 gen2 resp h
    obtain ⟨user, td, r, dbx, huser, hact, hvp, _, hv, hc, hjti, hsess, hgen,
      hacc, href, hexp⟩ := login_ok_inversion h
    unfold login
    rw [huser]
    simp only [create_access_token] at hv
    simp [hact, hvp, create_access_token, create_refresh_token, hv, hc,
      create_audit_log_false]
  · intro hnone
    unfold login
    rw [hnone]
    simp [create_audit_log_false]

/-- Claim C4, witness: the amended theorem at the concrete scenario — the
successful login and the unknown-user login both become 500 when the audit
store fails. -/
theorem audit_failure_aborts_login_witness :
    (login settings0 vp0 db0 0 1000 false "alice" "Abc12345!" client0).2 =
      .error loginError500 ∧
    (login settings0 vp0 db0 0 1000 false "bob" "pw" client0).2 =
      .error loginError500 :=
  ⟨(audit_failure_aborts_login settings0 vp0 db0 0 1000 "alice" "Abc12345!"
      client0).1 db1 2 resp0 rfl,
    (audit_failure_aborts_login settings0 vp0 db0 0 1000 "bob" "pw"
      client0).2 (by decide)⟩

/-- Claim C5: a login with an identifier matching no principal and a login
with an identifier matching an active principal but a wrong secret produce
the very same external error payload (same status, same message) — under
normal audit operation it is the uniform 401 bad-credentials message, and
even with a failing audit store the two calls still agree. -/
theorem login_error_payload_indistinguishable (settings : Settings)
    (vp : String → String → Bool) (db : DB) (gen now : Nat) (auditOk : Bool)
    (id1 id2 p1 p2 : String) (client : ClientInfo) (u : User)
    (h1 : get_user_by_username_or_email db id1 = none)
    (h2 : get_user_by_username_or_email db id2 = some u)
    (hact : u.is_active = true)
    (hvp : vp p2 u.hashed_password = false) :
    ∃ e, (login settings vp db gen now auditOk id1 p1 client).2 = .error e ∧
      (login settings vp db gen now auditOk id2 p2 client).2 = .error e ∧
      (auditOk = true → e = badCredentials401) := by
  cases auditOk with
  | false =>
    refine ⟨loginError500, ?_, ?_, by intro hcontra; cases hcontra⟩
    · unfold login
      rw [h1]
      simp [create_audit_log_false]
    · unfold login
      rw [h2]
      simp [hact, hvp, create_audit_log_false]
  | true =>
    refine ⟨badCredentials401, ?_, ?_, fun _ => rfl⟩
    · unfold login
      rw [h1]
      simp [create_audit_log_true_ok]
    · unfold login
      rw [h2]
      simp [hact, hvp, create_audit_log_true_ok]

/-- Claim C5, witness: unknown user `bob` vs `alice` with a wrong password,
under default settings with a healthy audit store. -/
theorem login_error_payload_indistinguishable_witness :
    ∃ e, (login settings0 vp0 db0 0 1000 true "bob" "anything" client0).2 =
        .error e ∧
      (login settings0 vp0 db0 0 1000 true "alice" "wrong" client0).2 =
        .error e ∧
      (true = true → e = badCredentials401) :=
  login_error_payload_indistinguishable settings0 vp0 db0 0 1000 true "bob"
    "alice" "anything" "wrong" client0 alice (by decide) (by decide) rfl
    (by decide)

/-- Claim C6: the refresh endpoint can never succeed.  Universally, every
call returns an error (the verify 401 or the generic 500); and concretely, a
login-issued, unexpired refresh token of the active principal — the claim's
happy path — gets the generic 500: after `verify_token` succeeds, the source
evaluates `token_payload.get("type")` on a pydantic `TokenData`, which has
no `get` method, so every reachable continuation raises `AttributeError`. -/
theorem refresh_endpoint_never_succeeds :
    (∀ (settings : Settings) (db : DB) (gen now : Nat) (tok : Jwt),
      ∃ e, (refresh_token_endpoint settings db gen now tok).2 = .error e) ∧
    refresh_token_endpoint settings0 db1 2 1500 tokR =
      ((db1, 2), .error refreshError500) := by
  constructor
  · intro settings db gen now tok
    unfold refresh_token_endpoint
    cases hv : verify_token settings now tok with
    | error e => exact ⟨e, by simp [hv]⟩
    | ok td => exact ⟨refreshError500, by simp [hv]⟩
  · rfl

/-- The verify endpoint answers 401 whenever the presented token's `jti` has
no ledger record at all. -/
theorem verify_endpoint_401_of_absent_jti {settings : Settings} {db : DB}
    {now : Nat} {tok : Jwt} {j : String}
    (hjti : tok.payload.jti = some j)
    (habsent : ∀ s ∈ db.sessions, s.token_jti ≠ j) :
    ∃ e, verify_token_endpoint settings db now (some tok) = .error e ∧
      e.status = 401 := by
  have hg : get_active_session db now (some j) = none := by
    unfold get_active_session
    refine List.find?_eq_none.mpr ?_
    intro s hs hp
    simp only [Bool.and_eq_true, beq_iff_eq, Option.some.injEq,
      decide_eq_true_eq] at hp
    exact habsent s hs hp.1.1
  unfold verify_token_endpoint
  cases hv : verify_token settings now tok with
  | error e =>
    refine ⟨e, by simp [hv], ?_⟩
    rw [verify_token_error_eq hv]
    rfl
  | ok td =>
    have hjti2 : td.jti = some j := by
      rw [(verify_token_ok_fields hv).1, hjti]
    cases hu : get_user_by_id db td.user_id with
    | none =>
      exact ⟨{ status := 401, detail := "유효하지 않은 사용자입니다" },
        by simp [hv, hu], rfl⟩
    | some user =>
      by_cases ha : user.is_active = false
      · exact ⟨{ status := 401, detail := "유효하지 않은 사용자입니다" },
          by simp [hv, hu, ha], rfl⟩
      · refine ⟨{ status := 401, detail := "세션이 만료되었습니다" }, ?_, rfl⟩
        rw [← hjti2] at hg
        simp [hv, hu, ha, hg]

/-- Claim C7: a token whose `jti` is absent from the ledger never passes the
verify endpoint (there is no kind check on this path — the session lookup is
what rejects it); and a successful login enters exactly the ACCESS token's
`jti` into the ledger, with the refresh token — whose `type` claim is
`refresh` — carrying a different `jti` that is therefore never tracked. -/
theorem refresh_tokens_never_pass_verify :
    (∀ (settings : Settings) (db : DB) (now : Nat) (tok : Jwt) (j : String),
      tok.payload.jti = some j →
      (∀ s ∈ db.sessions, s.token_jti ≠ j) →
      ∃ e, verify_token_endpoint settings db now (some tok) = .error e ∧
        e.status = 401) ∧
    (∀ (settings : Settings) (vp : String → String → Bool) (db : DB)
      (gen now : Nat) (auditOk : Bool) (username password : String)
      (client : ClientInfo) (db2 : DB) (gen2 : Nat) (resp : LoginResponse),
      login settings vp db gen now auditOk username password client =
        ((db2, gen2), .ok resp) →
      ∃ r, db2.sessions = db.sessions ++ [r] ∧
        some r.token_jti = resp.access_token.payload.jti ∧
        resp.refresh_token.payload.type = some "refresh" ∧
        resp.refresh_token.payload.jti ≠ some r.token_jti) := by
  constructor
  · intro settings db now tok j hjti habsent
    exact verify_endpoint_401_of_absent_jti hjti habsent
  · intro settings vp db gen now auditOk username password client db2 gen2
      resp h
    obtain ⟨user, td, r, dbx, huser, hact, hvp, _, hv, hc, hjti, hsess, hgen,
      hacc, href, hexp⟩ := login_ok_inversion h
    obtain ⟨j, hjq, hrj, hru, hre, hra, hdb1, hfresh⟩ := create_session_ok_spec hc
    have hj : j = uuid4 gen := by
      rw [hjti] at hjq
      simpa using hjq.symm
    refine ⟨r, hsess, ?_, ?_, ?_⟩
    · rw [hacc, hrj, hj]
      rfl
    · rw [href]
      rfl
    · rw [href, hrj, hj]
      intro hcontra
      simp only [create_refresh_token, Option.some.injEq] at hcontra
      exact absurd (uuid4_injective hcontra) (by omega)

/-- Claim C7, witness: the scenario's refresh token (jti `uuid4 1`, absent
from the post-login ledger) fails the verify endpoint with 401, and the
login trace shows only the access token's jti was entered. -/
theorem refresh_tokens_never_pass_verify_witness :
    (∃ e, verify_token_endpoint settings0 db1 1500 (some tokR) = .error e ∧
      e.status = 401) ∧
    ∃ r, db1.sessions = db0.sessions ++ [r] ∧
      some r.token_jti = tokA.payload.jti ∧
      tokR.payload.type = some "refresh" ∧
      tokR.payload.jti ≠ some r.token_jti :=
  ⟨refresh_tokens_never_pass_verify.1 settings0 db1 1500 tokR (uuid4 1) rfl
      (by decide),
    refresh_tokens_never_pass_verify.2 settings0 vp0 db0 0 1000 true "alice"
      "Abc12345!" client0 db1 2 resp0 rfl⟩

/-- Claim C9, counterexample.  With the access-token TTL configured to 60
minutes, the access token issued by login still carries
`exp − iat = 1800` seconds (30 minutes), not 3600: the login endpoint
hard-codes `timedelta(minutes=30)`. -/
theorem token_ttl_ignores_configuration :
    loginResult60.2 = .ok resp60 ∧
    settings60.access_token_expire_minutes = 60 ∧
    resp60.access_token.payload.exp - resp60.access_token.payload.iat = 1800 ∧
    (1800 : Nat) ≠ 60 * 60 :=
  ⟨rfl, rfl, rfl, by decide⟩

/-- Claim C9, amended: the token lifetimes are NOT configuration-driven in
the issuing paths — every login-issued access token carries
`exp − iat = 1800` s (a hard-coded 30 minutes) and every refresh token
`exp − iat = 604800` s (a hard-coded 7 days), regardless of the configured
TTL; the configured value governs only the advertised `expires_in` and the
session record's expiry. -/
theorem login_token_ttls_hardcoded (settings : Settings)
    (vp : String → String → Bool) (db : DB) (gen now : Nat) (auditOk : Bool)
    (username password : String) (client : ClientInfo) (db2 : DB)
    (gen2 : Nat) (resp : LoginResponse)
    (h : login settings vp db gen now auditOk username password client =
      ((db2, gen2), .ok resp)) :
    resp.access_token.payload.exp - resp.access_token.payload.iat = 1800 ∧
    resp.refresh_token.payload.exp - resp.refresh_token.payload.iat = 604800 ∧
    resp.expires_in = 60 * settings.access_token_expire_minutes ∧
    ∃ r, db2.sessions = db.sessions ++ [r] ∧
      r.expires_at = now + 60 * settings.access_token_expire_minutes := by
  obtain ⟨user, td, r, dbx, huser, hact, hvp, _, hv, hc, hjti, hsess, hgen,
    hacc, href, hexp⟩ := login_ok_inversion h
  obtain ⟨j, hjq, hrj, hru, hre, hra, hdb1, hfresh⟩ := create_session_ok_spec hc
  refine ⟨?_, ?_, ?_, r, hsess, hre⟩
  · rw [hacc]
    simp [create_access_token]
  · rw [href]
    simp [create_refresh_token]
  · rw [hexp]
    rfl

/-- Claim C9, witness: the amended theorem on the 60-minute-TTL login. -/
theorem login_token_ttls_hardcoded_witness :
    resp60.access_token.payload.exp - resp60.access_token.payload.iat = 1800 ∧
    resp60.refresh_token.payload.exp - resp60.refresh_token.payload.iat =
      604800 ∧
    resp60.expires_in = 60 * settings60.access_token_expire_minutes ∧
    ∃ r, loginResult60.1.1.sessions = db0.sessions ++ [r] ∧
      r.expires_at = 1000 + 60 * settings60.access_token_expire_minutes :=
  login_token_ttls_hardcoded settings60 vp0 db0 0 1000 true "alice"
    "Abc12345!" client0 loginResult60.1.1 loginResult60.1.2 resp60 rfl

end AuthService
